import Mathlib

/-!
Shallow embedding of the google-home-mcp repository's core: the OAuth2
credential/token manager (`GoogleAuth`, src/auth.ts) and the shared tool
dispatcher (the `CallToolRequestSchema` handler duplicated verbatim in
src/index.ts, src/server.ts and src/function.ts).

External collaborators are modelled as oracles/parameters:
the OAuth2 token-exchange endpoint (`oauth2Client.getToken`) and the
token-file write (`fs.writeFile`) are supplied by an `Oracle`; file and
environment reads made by `initialize` are supplied by an `InitEnv`
(a missing/unreadable/unparseable source is `none`, matching the uniform
catch-and-return in the source). JSON serialisation round-trips are taken
as faithful, so the token store holds `TokenSet` values directly.
-/

/-- The token bundle as held by google-auth-library's
`OAuth2Client.credentials`: every field optional (the client starts with
an empty credentials object). -/
structure TokenSet where
  access_token : Option String
  refresh_token : Option String
  expiry_date : Option Nat
deriving Repr, DecidableEq

/-- The empty `credentials` object a fresh `OAuth2Client` holds. -/
def emptyTokens : TokenSet := ⟨none, none, none⟩

/-- The `Credentials` interface of src/auth.ts. -/
structure Credentials where
  client_id : String
  client_secret : String
  redirect_uris : List String
deriving Repr, DecidableEq

/-- A parsed credential JSON blob: `credentials.installed || credentials.web`
in `initialize`. -/
structure CredFile where
  installed : Option Credentials
  web : Option Credentials
deriving Repr, DecidableEq

/-- The environment `initialize` reads: the GOOGLE_CREDENTIALS blob, the
credentials.json file, and the token.json file. `none` covers
missing, unreadable and unparseable alike (each such branch in the source
is caught and leaves the manager's state unchanged). -/
structure InitEnv where
  envCredentials : Option CredFile
  credFileContent : Option CredFile
  tokenFileContent : Option TokenSet
deriving Repr, DecidableEq

/-- The in-memory OAuth2 client: constructor arguments plus the mutable
`credentials` slot. `redirect_uri` is `redirect_uris[0]`, which in JS is
`undefined` on an empty array, hence `Option`. -/
structure OAuth2Client where
  client_id : String
  client_secret : String
  redirect_uri : Option String
  credentials : TokenSet
deriving Repr, DecidableEq

/-- `oauth2Client.setCredentials(tokens)`: wholesale replacement. -/
def OAuth2Client.setCredentials (c : OAuth2Client) (t : TokenSet) : OAuth2Client :=
  { c with credentials := t }

/-- The `GoogleAuth` class state: `oauth2Client` starts as `null`. -/
structure GoogleAuth where
  oauth2Client : Option OAuth2Client
deriving Repr, DecidableEq

/-- `new GoogleAuth()`. -/
def freshGoogleAuth : GoogleAuth := ⟨none⟩

/-- `isAuthenticated(): boolean` from src/auth.ts:
`!!(this.oauth2Client && this.oauth2Client.credentials.access_token)`.
JS truthiness makes `null`, `undefined` and the empty string all falsy. -/
def GoogleAuth.isAuthenticated (g : GoogleAuth) : Bool :=
  match g.oauth2Client with
  | none => false
  | some c =>
    match c.credentials.access_token with
    | none => false
    | some t => t ≠ ""

/-- `getClient()` from src/auth.ts: throws when no client exists. -/
def GoogleAuth.getClient (g : GoogleAuth) : Except String OAuth2Client :=
  match g.oauth2Client with
  | none => .error "OAuth2 client not initialized"
  | some c => .ok c

/-- Model of google-auth-library's `generateAuthUrl`: a deterministic URL
built from the client identity and the requested options (the library
builds exactly such a query string; treated as an opaque deterministic
collaborator). -/
def generateAuthUrl (c : OAuth2Client) (accessType : String) (scopes : List String) : String :=
  "https://accounts.google.com/o/oauth2/v2/auth?" ++
    "access_type=" ++ accessType ++
    "&scope=" ++ String.intercalate " " scopes ++
    "&response_type=code&client_id=" ++ c.client_id ++
    "&redirect_uri=" ++ c.redirect_uri.getD ""

/-- `getAuthUrl()` from src/auth.ts: throws without a client, otherwise
requests offline access with the two fixed scopes. -/
def GoogleAuth.getAuthUrl (g : GoogleAuth) : Except String String :=
  match g.oauth2Client with
  | none => .error "OAuth2 client not initialized"
  | some c =>
    .ok (generateAuthUrl c "offline"
      ["https://www.googleapis.com/auth/homegraph",
       "https://www.googleapis.com/auth/assistant-sdk-prototype"])

/-- Builds the OAuth2 client from a parsed credential blob
(`credentials.installed || credentials.web`; both absent ⇒ the
destructuring throws and the outer catch leaves state unchanged), then
loads a persisted token if one is readable. Helper for `initialize`. -/
def buildClientFrom (g : GoogleAuth) (cf : CredFile) (tok : Option TokenSet) : GoogleAuth :=
  match cf.installed with
  | some c => ⟨some ⟨c.client_id, c.client_secret, c.redirect_uris.head?,
      (match tok with | none => emptyTokens | some t => t)⟩⟩
  | none =>
    match cf.web with
    | some c => ⟨some ⟨c.client_id, c.client_secret, c.redirect_uris.head?,
        (match tok with | none => emptyTokens | some t => t)⟩⟩
    | none => g

/-- Side effects tracked for the claims: outbound network calls (the code
exchange) and durable token-store writes. `initialize` only reads files,
so it never emits an effect. -/
inductive Effect where
  | outboundCall : String → Effect
  | tokenWrite : TokenSet → Effect
deriving Repr, DecidableEq

/-- `initialize()` from src/auth.ts. Environment blob first, then the
credentials file; neither present (or unusable) leaves the prior state.
Returns the effect trace, which is empty on every path: `initialize`
performs no outbound call and no store write. -/
def GoogleAuth.initializeMgr (g : GoogleAuth) (env : InitEnv) : GoogleAuth × List Effect :=
  match env.envCredentials with
  | some cf => (buildClientFrom g cf env.tokenFileContent, [])
  | none =>
    match env.credFileContent with
    | some cf => (buildClientFrom g cf env.tokenFileContent, [])
    | none => (g, [])

/-- Outcome of the provider's `getToken(code)` call. -/
inductive ExchangeResult where
  | success : TokenSet → ExchangeResult
  | failure : String → ExchangeResult

/-- Oracle for the external world: the token-exchange endpoint and the
behaviour of the token-file write. The source uses a plain
`fs.writeFile`, which opens with flag w (truncate at open) and has no
temp-file-and-rename atomicity, so when the write fails the store is
left in whatever residual state the failure produced: `writeResidue` is
that content — the prior content only if the open itself failed, and
otherwise truncated or partially written bytes (an unparseable residue
is `none`, since a later read of it fails to parse). -/
structure Oracle where
  exchange : String → ExchangeResult
  writeOk : Bool
  writeError : String
  writeResidue : Option TokenSet

/-- The durable world around a `GoogleAuth`: its in-memory state plus the
content of the persisted token store (token.json). -/
structure AuthWorld where
  auth : GoogleAuth
  tokenStore : Option TokenSet
deriving Repr, DecidableEq

/-- `getTokenFromCode(code)` from src/auth.ts, in source order: throw
without a client; call `getToken(code)`; `setCredentials(tokens)` on the
in-memory client; then `fs.writeFile(tokenPath, ...)`. A failing write
surfaces its error after the in-memory credentials were already set, and
— the write being a plain truncate-at-open `fs.writeFile` with no
atomicity — leaves the store in the oracle's residual state, which may
be truncated or partially written. -/
def getTokenFromCode (w : AuthWorld) (o : Oracle) (code : String) :
    Except String Unit × AuthWorld × List Effect :=
  match w.auth.oauth2Client with
  | none => (.error "OAuth2 client not initialized", w, [])
  | some c =>
    match o.exchange code with
    | .failure msg => (.error msg, w, [Effect.outboundCall code])
    | .success tokens =>
      let w1 : AuthWorld := { w with auth := ⟨some (c.setCredentials tokens)⟩ }
      if o.writeOk then
        (.ok (), { w1 with tokenStore := some tokens },
          [Effect.outboundCall code, Effect.tokenWrite tokens])
      else
        (.error o.writeError, { w1 with tokenStore := o.writeResidue },
          [Effect.outboundCall code])

/-- JSON values, for the `arguments` mapping of a tool call. -/
inductive JsonValue where
  | str : String → JsonValue
  | num : Int → JsonValue
  | jbool : Bool → JsonValue
  | arr : List JsonValue → JsonValue
  | obj : List (String × JsonValue) → JsonValue
  | jnull : JsonValue

/-- A tool call's arguments: a string-keyed mapping (keys unique). -/
def Args := List (String × JsonValue)

/-- Key lookup in an arguments mapping. -/
def lookupArg (args : Args) (k : String) : Option JsonValue :=
  match args.find? (fun p => p.1 = k) with
  | none => none
  | some p => some p.2

/-- A single zod validation issue. The acceptance/rejection behaviour of
the schemas below follows zod semantics (`z.object` strips unknown keys,
throws on a missing required key or a wrong value type); the rendered
message text is modelled deterministically, not byte-for-byte. -/
structure ZodIssue where
  path : String
  expected : String
  received : String
deriving Repr, DecidableEq

/-- Deterministic rendering of a validation issue (model of
`ZodError.message`). -/
def ZodIssue.render (i : ZodIssue) : String :=
  "invalid_type at " ++ i.path ++ ": expected " ++ i.expected ++
    ", received " ++ i.received

/-- The issue zod reports for an absent required key. -/
def requiredIssue (path expected : String) : ZodIssue :=
  ⟨path, expected, "undefined"⟩

/-- `z.string()` applied to a JSON value. -/
def JsonValue.asString : JsonValue → Option String
  | .str s => some s
  | _ => none

/-- `z.array(z.string())` applied to a JSON value. -/
def JsonValue.asStringList : JsonValue → Option (List String)
  | .arr xs => xs.mapM JsonValue.asString
  | _ => none

/-- Parsed `ExecuteCommandSchema` output. -/
structure ExecArgs where
  command : String
  devices : Option (List String)
deriving Repr, DecidableEq

/-- `ExecuteCommandSchema.parse`: `command: z.string()`,
`devices: z.array(z.string()).optional()`. -/
def ExecuteCommandSchema.parse (args : Args) : Except String ExecArgs :=
  match lookupArg args "command" with
  | none => .error (ZodIssue.render (requiredIssue "command" "string"))
  | some v =>
    match v.asString with
    | none => .error (ZodIssue.render (requiredIssue "command" "string"))
    | some cmd =>
      match lookupArg args "devices" with
      | none => .ok ⟨cmd, none⟩
      | some dv =>
        match dv.asStringList with
        | none => .error (ZodIssue.render ⟨"devices", "array", "other"⟩)
        | some ds => .ok ⟨cmd, some ds⟩

/-- `QueryDevicesSchema.parse`: `devices: z.array(z.string()).optional()`. -/
def QueryDevicesSchema.parse (args : Args) : Except String (Option (List String)) :=
  match lookupArg args "devices" with
  | none => .ok none
  | some dv =>
    match dv.asStringList with
    | none => .error (ZodIssue.render ⟨"devices", "array", "other"⟩)
    | some ds => .ok (some ds)

/-- `GetDeviceStatesSchema.parse`: `deviceIds: z.array(z.string())`. -/
def GetDeviceStatesSchema.parse (args : Args) : Except String (List String) :=
  match lookupArg args "deviceIds" with
  | none => .error (ZodIssue.render (requiredIssue "deviceIds" "array"))
  | some v =>
    match v.asStringList with
    | none => .error (ZodIssue.render ⟨"deviceIds", "array", "other"⟩)
    | some ds => .ok ds

/-- The inline `z.object({ code: z.string() }).parse(args)` of the
`authenticate` case. -/
def AuthenticateSchema.parse (args : Args) : Except String String :=
  match lookupArg args "code" with
  | none => .error (ZodIssue.render (requiredIssue "code" "string"))
  | some v =>
    match v.asString with
    | none => .error (ZodIssue.render (requiredIssue "code" "string"))
    | some code => .ok code

/-- A tool call's result: by contract a single text block. -/
structure ToolResult where
  text : String
deriving Repr, DecidableEq

/-- The dispatcher's state: the credential world plus whether the cached
`this.homegraph` client has been constructed. -/
structure MCPState where
  world : AuthWorld
  homegraph : Bool
deriving Repr, DecidableEq

/-- `devices?.join(', ') || 'all devices'`: JS `||` treats the empty
string (the join of an empty list) as falsy. -/
def devicesText (devices : Option (List String)) : String :=
  match devices with
  | none => "all devices"
  | some ds =>
    let j := String.intercalate ", " ds
    if j = "" then "all devices" else j

/-- The body of the `CallToolRequestSchema` handler's `try` block
(identical in src/index.ts, src/server.ts, src/function.ts): the switch
over tool names. `.error` is a thrown exception; state mutations made
before a throw persist. -/
def dispatchTool (s : MCPState) (o : Oracle) (name : String) (args : Args) :
    Except String ToolResult × MCPState × List Effect :=
  if name = "get_auth_url" then
    if s.world.auth.isAuthenticated then
      (.ok ⟨"Already authenticated with Google."⟩, s, [])
    else
      match s.world.auth.getAuthUrl with
      | .error e => (.error e, s, [])
      | .ok url =>
        (.ok ⟨"Please visit this URL to authorize the application:\n" ++ url⟩, s, [])
  else if name = "authenticate" then
    match AuthenticateSchema.parse args with
    | .error msg => (.error msg, s, [])
    | .ok code =>
      match getTokenFromCode s.world o code with
      | (.error e, w1, fx) => (.error e, { s with world := w1 }, fx)
      | (.ok _, w1, fx) =>
        (.ok ⟨"Successfully authenticated with Google!"⟩, ⟨w1, true⟩, fx)
  else if name = "execute_command" then
    if s.world.auth.isAuthenticated then
      match ExecuteCommandSchema.parse args with
      | .error msg => (.error msg, s, [])
      | .ok a =>
        (.ok ⟨"Command \"" ++ a.command ++ "\" would be executed on devices: " ++
            devicesText a.devices⟩, { s with homegraph := true }, [])
    else
      (.error "Not authenticated. Please authenticate first.", s, [])
  else if name = "query_devices" then
    if s.world.auth.isAuthenticated then
      match QueryDevicesSchema.parse args with
      | .error msg => (.error msg, s, [])
      | .ok ds =>
        (.ok ⟨"Querying devices: " ++ devicesText ds⟩, { s with homegraph := true }, [])
    else
      (.error "Not authenticated. Please authenticate first.", s, [])
  else if name = "get_device_states" then
    if s.world.auth.isAuthenticated then
      match GetDeviceStatesSchema.parse args with
      | .error msg => (.error msg, s, [])
      | .ok ids =>
        (.ok ⟨"Getting states for devices: " ++ String.intercalate ", " ids⟩,
          { s with homegraph := true }, [])
    else
      (.error "Not authenticated. Please authenticate first.", s, [])
  else if name = "list_devices" then
    if s.world.auth.isAuthenticated then
      (.ok ⟨"Device listing would be implemented here"⟩, { s with homegraph := true }, [])
    else
      (.error "Not authenticated. Please authenticate first.", s, [])
  else
    (.error ("Unknown tool: " ++ name), s, [])

/-- The full handler: the `catch` wraps any thrown error as the uniform
text envelope `Error: <message>`, returned as an ordinary result. -/
def handleCallTool (s : MCPState) (o : Oracle) (name : String) (args : Args) :
    Except String ToolResult × MCPState × List Effect :=
  match dispatchTool s o name args with
  | (.error msg, s1, fx) => (.ok ⟨"Error: " ++ msg⟩, s1, fx)
  | r => r

/-- The names in the tool catalog advertised by `ListToolsRequestSchema`. -/
def catalogNames : List String :=
  ["execute_command", "query_devices", "get_device_states",
   "list_devices", "get_auth_url", "authenticate"]

/-- A concrete OAuth2 client holding no tokens, for test scenarios. -/
def client0 : OAuth2Client := ⟨"cid-1", "sec-1", some "http://localhost:3000", emptyTokens⟩

/-- A concrete TokenSet with a non-empty access token. -/
def tok0 : TokenSet := ⟨some "at-123", some "rt-456", some 1000⟩

/-- A concrete prior TokenSet, distinct from `tok0`. -/
def tokOld : TokenSet := ⟨some "at-old", none, some 5⟩

/-- Configured but unauthenticated manager. -/
def auth0 : GoogleAuth := ⟨some client0⟩

/-- World around `auth0` with an empty token store. -/
def world0 : AuthWorld := ⟨auth0, none⟩

/-- World around `auth0` whose store still holds a previous TokenSet. -/
def worldOld : AuthWorld := ⟨auth0, some tokOld⟩

/-- Dispatcher state that is configured but not authenticated. -/
def state0 : MCPState := ⟨world0, false⟩

/-- Authenticated manager: the client holds `tok0`. -/
def authA : GoogleAuth := ⟨some (client0.setCredentials tok0)⟩

/-- Authenticated world whose store holds `tok0`. -/
def worldA : AuthWorld := ⟨authA, some tok0⟩

/-- Authenticated dispatcher state. -/
def stateA : MCPState := ⟨worldA, false⟩

/-- Oracle: exchange succeeds with `tok0`, write succeeds. -/
def oracle0 : Oracle := ⟨fun _ => .success tok0, true, "write failed: disk error", none⟩

/-- Oracle: exchange rejects the code. -/
def oracleBadCode : Oracle := ⟨fun _ => .failure "invalid_grant", true, "write failed: disk error", none⟩

/-- Oracle: exchange succeeds with `tok0` but the store write fails
mid-way, leaving a truncated (unparseable) store behind. -/
def oracleBadWrite : Oracle := ⟨fun _ => .success tok0, false, "write failed: disk error", none⟩

/-- Claim C1 counterexample: invoking the dispatcher with an unknown
operation name does NOT propagate an error out of the handler — it
returns the ordinary uniform text envelope, exactly like every runtime
failure. -/
theorem unknown_tool_counterexample :
    handleCallTool state0 oracle0 "unknown_op" [] =
      (.ok ⟨"Error: Unknown tool: unknown_op"⟩, state0, []) := by
  rfl

/-- Claim C1 (amended): for every name outside the catalog, the handler
catches the thrown `Unknown tool` error and returns the uniform envelope
`Error: Unknown tool: <name>`, with state unchanged and no side effect;
no failure mode of the dispatcher propagates out of it. -/
theorem unknown_tool_enveloped (s : MCPState) (o : Oracle) (name : String)
    (args : Args) (h : name ∉ catalogNames) :
    handleCallTool s o name args =
      (.ok ⟨"Error: Unknown tool: " ++ name⟩, s, []) := by
  simp only [catalogNames, List.mem_cons, List.not_mem_nil, or_false, not_or] at h
  obtain ⟨h1, h2, h3, h4, h5, h6⟩ := h
  simp [handleCallTool, dispatchTool, h1, h2, h3, h4, h5, h6]
  rfl

/-- Claim C1 witness: concrete unknown name, concrete state. -/
theorem unknown_tool_enveloped_witness :
    handleCallTool stateA oracleBadCode "not_a_tool" [("x", JsonValue.str "y")] =
      (.ok ⟨"Error: Unknown tool: not_a_tool"⟩, stateA, []) :=
  unknown_tool_enveloped stateA oracleBadCode "not_a_tool"
    [("x", JsonValue.str "y")] (by decide)

/-- Claim C2 counterexample: `invoke("get_device_states", {})` (missing
the required `deviceIds`) in an unauthenticated state returns the
authentication error, not a validation error: the auth gate runs before
argument validation, so validation is not performed before every other
action, and the returned text carries no validation-failure
description. -/
theorem validation_not_first_counterexample :
    handleCallTool state0 oracle0 "get_device_states" [] =
      (.ok ⟨"Error: Not authenticated. Please authenticate first."⟩, state0, []) ∧
    GetDeviceStatesSchema.parse [] =
      .error (ZodIssue.render (requiredIssue "deviceIds" "array")) ∧
    ("Error: Not authenticated. Please authenticate first." ≠
      "Error: " ++ ZodIssue.render (requiredIssue "deviceIds" "array")) := by
  refine ⟨rfl, rfl, by decide⟩

/-- Claim C2 (amended): argument validation runs after the authentication
gate, not before every other action. Once the gate passes (or for the
no-auth `authenticate` operation), a call whose arguments miss a required
field returns an enveloped validation error, with the state unchanged and
no side effect (no outbound call, no token write). -/
theorem missing_required_field_enveloped (s : MCPState) (o : Oracle) (args : Args) :
    (lookupArg args "code" = none →
      handleCallTool s o "authenticate" args =
        (.ok ⟨"Error: " ++ ZodIssue.render (requiredIssue "code" "string")⟩, s, [])) ∧
    (s.world.auth.isAuthenticated = true → lookupArg args "deviceIds" = none →
      handleCallTool s o "get_device_states" args =
        (.ok ⟨"Error: " ++ ZodIssue.render (requiredIssue "deviceIds" "array")⟩, s, [])) ∧
    (s.world.auth.isAuthenticated = true → lookupArg args "command" = none →
      handleCallTool s o "execute_command" args =
        (.ok ⟨"Error: " ++ ZodIssue.render (requiredIssue "command" "string")⟩, s, [])) := by
  refine ⟨fun hc => ?_, fun ha hd => ?_, fun ha hc => ?_⟩
  · simp [handleCallTool, dispatchTool, AuthenticateSchema.parse, hc]
  · simp [handleCallTool, dispatchTool, GetDeviceStatesSchema.parse, ha, hd]
  · simp [handleCallTool, dispatchTool, ExecuteCommandSchema.parse, ha, hc]

/-- Claim C2 witness: authenticated state, `get_device_states` with empty
arguments. -/
theorem missing_required_field_enveloped_witness :
    handleCallTool stateA oracle0 "get_device_states" [] =
      (.ok ⟨"Error: " ++ ZodIssue.render (requiredIssue "deviceIds" "array")⟩,
        stateA, []) :=
  (missing_required_field_enveloped stateA oracle0 []).2.1 (by decide) rfl

/-- Claim C3 counterexample: a failing store write is NOT all-or-nothing.
Starting unauthenticated with a prior TokenSet in the store, the
exchange call succeeds but the token-file write fails mid-way: the error
surfaces, yet `isAuthenticated()` has flipped from false to true
(`setCredentials` runs before the write), and the store no longer holds
the prior TokenSet — the plain truncate-at-open `fs.writeFile` left it
truncated. -/
theorem exchange_write_failure_counterexample :
    (getTokenFromCode worldOld oracleBadWrite "code-1").1 =
      .error "write failed: disk error" ∧
    worldOld.auth.isAuthenticated = false ∧
    (getTokenFromCode worldOld oracleBadWrite "code-1").2.1.auth.isAuthenticated = true ∧
    worldOld.tokenStore = some tokOld ∧
    (getTokenFromCode worldOld oracleBadWrite "code-1").2.1.tokenStore = none := by
  refine ⟨rfl, rfl, rfl, rfl, rfl⟩

/-- Claim C3 (amended): a failing exchange call (invalid code, network
error) surfaces the error and leaves the in-memory state and the token
store completely untouched, with no write effect; a complete TokenSet is
persisted only after a successful exchange. However, when the exchange
succeeds and only the store write fails, the error surfaces but the call
is not all-or-nothing: the in-memory client already holds the new
TokenSet (so `isAuthenticated()` may have changed), and the store is
left in whatever residual state the failed plain `fs.writeFile`
produced — possibly truncated or partially written, since the code
implements no do-not-truncate-then-fail atomicity. -/
theorem exchange_failure_semantics (w : AuthWorld) (o : Oracle) (code : String)
    (c : OAuth2Client) (t : TokenSet) (m : String)
    (hc : w.auth.oauth2Client = some c) :
    (o.exchange code = .failure m →
      getTokenFromCode w o code = (.error m, w, [Effect.outboundCall code])) ∧
    (o.exchange code = .success t → o.writeOk = false →
      getTokenFromCode w o code =
        (.error o.writeError, ⟨⟨some (c.setCredentials t)⟩, o.writeResidue⟩,
          [Effect.outboundCall code])) := by
  constructor
  · intro hx
    simp [getTokenFromCode, hc, hx]
  · intro hx hw
    simp [getTokenFromCode, hc, hx, hw]

/-- Claim C3 witness: both failure modes at concrete inputs. -/
theorem exchange_failure_semantics_witness :
    getTokenFromCode worldOld oracleBadCode "bad-code" =
      (.error "invalid_grant", worldOld, [Effect.outboundCall "bad-code"]) ∧
    getTokenFromCode worldOld oracleBadWrite "code-1" =
      (.error "write failed: disk error",
        ⟨⟨some (client0.setCredentials tok0)⟩, none⟩,
        [Effect.outboundCall "code-1"]) :=
  ⟨(exchange_failure_semantics worldOld oracleBadCode "bad-code" client0 tok0
      "invalid_grant" rfl).1 rfl,
   (exchange_failure_semantics worldOld oracleBadWrite "code-1" client0 tok0
      "invalid_grant" rfl).2 rfl rfl⟩

/-- Claim C4: every auth-requiring operation, invoked in any state where
`isAuthenticated()` is false and with any arguments, returns the envelope
with message exactly "Not authenticated. Please authenticate first.",
leaves the state unchanged, and performs no outbound call and no token
write (empty effect trace): the gate throws before the operation is
attempted. -/
theorem unauthenticated_gate (s : MCPState) (o : Oracle) (args : Args)
    (h : s.world.auth.isAuthenticated = false) :
    handleCallTool s o "list_devices" args =
      (.ok ⟨"Error: Not authenticated. Please authenticate first."⟩, s, []) ∧
    handleCallTool s o "execute_command" args =
      (.ok ⟨"Error: Not authenticated. Please authenticate first."⟩, s, []) ∧
    handleCallTool s o "query_devices" args =
      (.ok ⟨"Error: Not authenticated. Please authenticate first."⟩, s, []) ∧
    handleCallTool s o "get_device_states" args =
      (.ok ⟨"Error: Not authenticated. Please authenticate first."⟩, s, []) := by
  refine ⟨?_, ?_, ?_, ?_⟩ <;> simp [handleCallTool, dispatchTool, h]

/-- Claim C4 witness: unauthenticated concrete state, arbitrary concrete
arguments. -/
theorem unauthenticated_gate_witness :
    handleCallTool state0 oracle0 "execute_command"
        [("command", JsonValue.str "lights_on")] =
      (.ok ⟨"Error: Not authenticated. Please authenticate first."⟩, state0, []) :=
  (unauthenticated_gate state0 oracle0
    [("command", JsonValue.str "lights_on")] rfl).2.1

/-- Claim C5: a fully successful `getTokenFromCode` (exchange succeeds
with a TokenSet carrying a non-empty access token, and the store write
succeeds) stores the TokenSet on the in-memory client, overwrites the
token store with it wholesale regardless of the prior store content, and
leaves `isAuthenticated()` true. -/
theorem exchange_success_authenticates (w : AuthWorld) (o : Oracle) (code : String)
    (c : OAuth2Client) (t : TokenSet) (a : String)
    (hc : w.auth.oauth2Client = some c)
    (hx : o.exchange code = .success t)
    (hw : o.writeOk = true)
    (ht : t.access_token = some a) (ha : a ≠ "") :
    getTokenFromCode w o code =
      (.ok (), ⟨⟨some (c.setCredentials t)⟩, some t⟩,
        [Effect.outboundCall code, Effect.tokenWrite t]) ∧
    GoogleAuth.isAuthenticated ⟨some (c.setCredentials t)⟩ = true := by
  constructor
  · simp [getTokenFromCode, hc, hx, hw]
  · simp [GoogleAuth.isAuthenticated, OAuth2Client.setCredentials, ht, ha]

/-- Claim C5 witness: successful exchange over a store holding a prior
TokenSet; the store ends up holding exactly the new one. -/
theorem exchange_success_authenticates_witness :
    getTokenFromCode worldOld oracle0 "good-code" =
      (.ok (), ⟨⟨some (client0.setCredentials tok0)⟩, some tok0⟩,
        [Effect.outboundCall "good-code", Effect.tokenWrite tok0]) ∧
    GoogleAuth.isAuthenticated ⟨some (client0.setCredentials tok0)⟩ = true :=
  exchange_success_authenticates worldOld oracle0 "good-code" client0 tok0
    "at-123" rfl rfl rfl rfl (by decide)

/-- Claim C6: `getAuthUrl` fails with the not-configured error when no
OAuth2 client exists; otherwise it is a pure, deterministic function of
the loaded client identity (independent of the token state), and the URL
always carries `access_type=offline` together with the home-graph scope
and the assistant prototype scope. -/
theorem getAuthUrl_contract :
    (GoogleAuth.getAuthUrl ⟨none⟩ = .error "OAuth2 client not initialized") ∧
    (∀ (cid cs : String) (ru : Option String) (t1 t2 : TokenSet),
      GoogleAuth.getAuthUrl ⟨some ⟨cid, cs, ru, t1⟩⟩ =
        GoogleAuth.getAuthUrl ⟨some ⟨cid, cs, ru, t2⟩⟩) ∧
    (∀ (cid cs : String) (ru : Option String) (t : TokenSet), ∃ p q,
      GoogleAuth.getAuthUrl ⟨some ⟨cid, cs, ru, t⟩⟩ =
        .ok (p ++ ("access_type=offline" ++ q))) ∧
    (∀ (cid cs : String) (ru : Option String) (t : TokenSet), ∃ p q,
      GoogleAuth.getAuthUrl ⟨some ⟨cid, cs, ru, t⟩⟩ =
        .ok (p ++ ("https://www.googleapis.com/auth/homegraph" ++ q))) ∧
    (∀ (cid cs : String) (ru : Option String) (t : TokenSet), ∃ p q,
      GoogleAuth.getAuthUrl ⟨some ⟨cid, cs, ru, t⟩⟩ =
        .ok (p ++ ("https://www.googleapis.com/auth/assistant-sdk-prototype" ++ q))) := by
  refine ⟨rfl, fun cid cs ru t1 t2 => rfl, fun cid cs ru t => ?_,
    fun cid cs ru t => ?_, fun cid cs ru t => ?_⟩
  · refine ⟨"https://accounts.google.com/o/oauth2/v2/auth?",
      "&scope=https://www.googleapis.com/auth/homegraph https://www.googleapis.com/auth/assistant-sdk-prototype&response_type=code&client_id=" ++
        (cid ++ ("&redirect_uri=" ++ ru.getD "")), ?_⟩
    simp [GoogleAuth.getAuthUrl, generateAuthUrl, String.append_assoc,
      String.intercalate, String.intercalate.go]
    rfl
  · refine ⟨"https://accounts.google.com/o/oauth2/v2/auth?access_type=offline&scope=",
      " https://www.googleapis.com/auth/assistant-sdk-prototype&response_type=code&client_id=" ++
        (cid ++ ("&redirect_uri=" ++ ru.getD "")), ?_⟩
    simp [GoogleAuth.getAuthUrl, generateAuthUrl, String.append_assoc,
      String.intercalate, String.intercalate.go]
    rfl
  · refine ⟨"https://accounts.google.com/o/oauth2/v2/auth?access_type=offline&scope=https://www.googleapis.com/auth/homegraph ",
      "&response_type=code&client_id=" ++ (cid ++ ("&redirect_uri=" ++ ru.getD "")), ?_⟩
    simp [GoogleAuth.getAuthUrl, generateAuthUrl, String.append_assoc,
      String.intercalate, String.intercalate.go]
    rfl

/-- The credential the restart-scenario fixtures load. -/
def cred0 : Credentials := ⟨"cid-1", "sec-1", ["http://localhost:3000"]⟩

/-- A credentials.json content with an `installed` entry. -/
def credFile0 : CredFile := ⟨some cred0, none⟩

/-- Restart environment: credentials file on disk plus the token store
written by the prior successful exchange. -/
def envRestart : InitEnv := ⟨none, some credFile0, some tok0⟩

/-- Claim C7: a token store written by a prior successful
`getTokenFromCode`, read back by a freshly constructed manager whose
`initialize` finds a credential source, yields `isAuthenticated() = true`
with no outbound call (the init effect trace is empty). -/
theorem restart_restores_session (w : AuthWorld) (o : Oracle) (code : String)
    (env : InitEnv) (cf : CredFile) (c0 : OAuth2Client) (c : Credentials)
    (t : TokenSet) (a : String)
    (hc : w.auth.oauth2Client = some c0)
    (hx : o.exchange code = .success t)
    (hwr : o.writeOk = true)
    (henv : env.tokenFileContent = (getTokenFromCode w o code).2.1.tokenStore)
    (hsrc : env.envCredentials = some cf ∨
      (env.envCredentials = none ∧ env.credFileContent = some cf))
    (hcf : cf.installed = some c ∨ (cf.installed = none ∧ cf.web = some c))
    (ht : t.access_token = some a) (ha : a ≠ "") :
    (getTokenFromCode w o code).1 = .ok () ∧
    (GoogleAuth.initializeMgr freshGoogleAuth env).1.isAuthenticated = true ∧
    (GoogleAuth.initializeMgr freshGoogleAuth env).2 = [] := by
  have hstore : env.tokenFileContent = some t := by
    simpa [getTokenFromCode, hc, hx, hwr] using henv
  clear henv
  refine ⟨by simp [getTokenFromCode, hc, hx, hwr], ?_, ?_⟩
  · rcases hsrc with h | ⟨h1, h2⟩ <;> rcases hcf with hi | ⟨hi1, hi2⟩ <;>
      simp_all [GoogleAuth.initializeMgr, buildClientFrom,
        GoogleAuth.isAuthenticated]
  · rcases hsrc with h | ⟨h1, h2⟩ <;>
      simp_all [GoogleAuth.initializeMgr]

/-- Claim C7 witness: concrete exchange, concrete restart environment. -/
theorem restart_restores_session_witness :
    (getTokenFromCode worldOld oracle0 "good-code").1 = .ok () ∧
    (GoogleAuth.initializeMgr freshGoogleAuth envRestart).1.isAuthenticated = true ∧
    (GoogleAuth.initializeMgr freshGoogleAuth envRestart).2 = [] :=
  restart_restores_session worldOld oracle0 "good-code" envRestart credFile0
    client0 cred0 tok0 "at-123" rfl rfl rfl rfl
    (Or.inr ⟨rfl, rfl⟩) (Or.inl rfl) rfl (by decide)

/-- Replaces only the expiry timestamp of the token held by the client,
leaving everything else in place; state-manipulation helper for the
expiry-independence statement. -/
def setExpiryDate (g : GoogleAuth) (e : Option Nat) : GoogleAuth :=
  match g.oauth2Client with
  | none => g
  | some c => ⟨some { c with credentials := { c.credentials with expiry_date := e } }⟩

/-- Claim C8: `isAuthenticated` is true exactly when an OAuth2 client
exists and it holds a non-empty access token; it reads no oracle (no
network), and it is insensitive to the token's expiry timestamp, so an
expired-but-present token still counts as authenticated. -/
theorem isAuthenticated_characterisation :
    (∀ g : GoogleAuth, g.isAuthenticated = true ↔
      ∃ c tok, g.oauth2Client = some c ∧
        c.credentials.access_token = some tok ∧ tok ≠ "") ∧
    (∀ (g : GoogleAuth) (e : Option Nat),
      (setExpiryDate g e).isAuthenticated = g.isAuthenticated) := by
  constructor
  · intro g
    obtain ⟨oc⟩ := g
    cases oc with
    | none => simp [GoogleAuth.isAuthenticated]
    | some c =>
      obtain ⟨cid, cs, ru, ⟨atk, rtk, exd⟩⟩ := c
      cases atk with
      | none => simp [GoogleAuth.isAuthenticated]
      | some tk => simp [GoogleAuth.isAuthenticated]
  · intro g e
    obtain ⟨oc⟩ := g
    cases oc with
    | none => rfl
    | some c => rfl

/-- Claim C9: `initialize` with neither credential source present
completes without error (it is total and returns), changes nothing, and
leaves the fresh manager unconfigured: `isAuthenticated()` is false and
`getAuthUrl` fails with the not-configured error. -/
theorem unconfigured_soft_failure (env : InitEnv)
    (h1 : env.envCredentials = none) (h2 : env.credFileContent = none) :
    GoogleAuth.initializeMgr freshGoogleAuth env = (freshGoogleAuth, []) ∧
    freshGoogleAuth.isAuthenticated = false ∧
    freshGoogleAuth.getAuthUrl = .error "OAuth2 client not initialized" := by
  refine ⟨?_, rfl, rfl⟩
  simp [GoogleAuth.initializeMgr, h1, h2]

/-- Claim C9 witness: no env blob, no credentials file (a stale token
file may even exist — it is never reached). -/
theorem unconfigured_soft_failure_witness :
    GoogleAuth.initializeMgr freshGoogleAuth ⟨none, none, some tok0⟩ =
        (freshGoogleAuth, []) ∧
    freshGoogleAuth.isAuthenticated = false ∧
    freshGoogleAuth.getAuthUrl = .error "OAuth2 client not initialized" :=
  unconfigured_soft_failure ⟨none, none, some tok0⟩ rfl rfl

/-- Claim C10: for an authenticated invoke of `execute_command` or
`query_devices`, an explicitly empty `devices` list renders as
"all devices" — indistinguishable from omitting the argument — because
`[].join(", ")` is the empty string, which JS `||` discards; the result
text never names zero devices. -/
theorem empty_device_list_reads_all_devices (s : MCPState) (o : Oracle)
    (cmd : String) (h : s.world.auth.isAuthenticated = true) :
    handleCallTool s o "execute_command"
        [("command", JsonValue.str cmd), ("devices", JsonValue.arr [])] =
      (.ok ⟨"Command \"" ++ cmd ++ "\" would be executed on devices: all devices"⟩,
        { s with homegraph := true }, []) ∧
    handleCallTool s o "execute_command"
        [("command", JsonValue.str cmd), ("devices", JsonValue.arr [])] =
      handleCallTool s o "execute_command" [("command", JsonValue.str cmd)] ∧
    handleCallTool s o "query_devices" [("devices", JsonValue.arr [])] =
      (.ok ⟨"Querying devices: all devices"⟩, { s with homegraph := true }, []) ∧
    handleCallTool s o "query_devices" [("devices", JsonValue.arr [])] =
      handleCallTool s o "query_devices" [] := by
  refine ⟨?_, ?_, ?_, ?_⟩ <;>
    simp [handleCallTool, dispatchTool, h, ExecuteCommandSchema.parse,
      QueryDevicesSchema.parse, lookupArg, List.find?, JsonValue.asString,
      JsonValue.asStringList, List.mapM, List.mapM.loop, devicesText,
      String.intercalate, String.intercalate.go, String.append_assoc]

/-- Claim C10 witness: authenticated state, concrete command. -/
theorem empty_device_list_reads_all_devices_witness :
    handleCallTool stateA oracle0 "execute_command"
        [("command", JsonValue.str "turn_on"), ("devices", JsonValue.arr [])] =
      (.ok ⟨"Command \"turn_on\" would be executed on devices: all devices"⟩,
        { stateA with homegraph := true }, []) :=
  (empty_device_list_reads_all_devices stateA oracle0 "turn_on" (by decide)).1
